import Mathlib

/-!
Shallow embedding of the Arduino-Home-Automation controllers
(`AutomationController.cpp/.h`, `ScheduleController.cpp/.h`, `Config.h`)
and proofs of the specification claims about them.

Modelling conventions:
* `uint8_t` / `uint16_t` / `uint32_t` / `unsigned long` values are `Nat`,
  with an explicit `% 2 ^ w` wherever the C arithmetic can wrap
  (e.g. `threshold + 10` on a `uint8_t`, `millis() - startTime` on a
  32-bit `unsigned long`).  Where the C code promotes `uint8_t` operands
  to `int` (as in `threshold - hysteresis`), the comparison is carried
  out in `Int`, exactly as the promoted C arithmetic does.
* the fixed-size arrays `rules[MAX_AUTOMATION_RULES]`,
  `schedules[MAX_SCHEDULES]`, `timers[MAX_TIMERS]` together with their
  logical counts are modelled as lists holding the logical prefix
  (every loop in the source is bounded by the count, so slots past the
  count are never read);
* the relay callback is modelled by collecting the list of invocations
  `(relayId, state)` an operation performs, in order;
* SD-card files are modelled as `Option (Nat × List α)`: `none` for a
  missing file or failed open, otherwise the stored count byte and the
  sequence of fixed-size records in the file.
-/

namespace HomeAuto

/-! ## Config.h constants -/

def RELAY_COUNT : Nat := 5
def MAX_AUTOMATION_RULES : Nat := 5
def TEMP_HYSTERESIS : Nat := 2
def MAX_SCHEDULES : Nat := 6
def MAX_TIMERS : Nat := 5

/-! ## AutomationController.h data model -/

/-- Trigger types for automation rules (`enum class TriggerType`). -/
inductive TriggerType where
  | TEMP_HIGH
  | TEMP_LOW
  | TEMP_RANGE
  | MANUAL_ONLY
  | MOTION_DETECTED
  | LIGHT_LOW
deriving DecidableEq, Repr

/-- Action to perform when triggered (`enum class ActionType`). -/
inductive ActionType where
  | TURN_ON
  | TURN_OFF
  | TOGGLE
deriving DecidableEq, Repr

/-- Automation rule structure (`struct AutomationRule`). -/
structure AutomationRule where
  relayId : Nat
  triggerType : TriggerType
  action : ActionType
  threshold : Nat
  thresholdHigh : Nat
  enabled : Bool
  currentlyTriggered : Bool
  hysteresis : Nat
  lastTriggerTime : Nat
deriving DecidableEq, Repr

/-- In-memory state of an `AutomationController`: the logical prefix of
`rules[]` (of length `ruleCount`) plus the two scalar fields. -/
structure AutomationController where
  rules : List AutomationRule
  automationEnabled : Bool
  lastTemperature : Nat
deriving DecidableEq, Repr

/-! ## ScheduleController.h data model -/

/-- Schedule entry (`struct Schedule`). -/
structure Schedule where
  relayId : Nat
  onHour : Nat
  onMinute : Nat
  offHour : Nat
  offMinute : Nat
  daysOfWeek : Nat
  enabled : Bool
  isActive : Bool
deriving DecidableEq, Repr

/-- One-time countdown timer (`struct Timer`). -/
structure Timer where
  relayId : Nat
  startTime : Nat
  duration : Nat
  turnOffWhenExpired : Bool
  enabled : Bool
deriving DecidableEq, Repr

/-! ## AutomationController.cpp -/

namespace AutomationController

/-- Condition check of `AutomationController::evaluateCondition`.
The `uint8_t` operands are promoted to `int` before the arithmetic in
`threshold - rule.hysteresis` and `threshold + rule.hysteresis`, so the
comparisons are carried out in `Int` with no wraparound. -/
def evaluateCondition (rule : AutomationRule) (currentTemp : Nat) : Bool :=
  match rule.triggerType with
  | .TEMP_HIGH =>
      if rule.currentlyTriggered then
        decide ((currentTemp : Int) ≥ (rule.threshold : Int) - (rule.hysteresis : Int))
      else
        decide (currentTemp ≥ rule.threshold)
  | .TEMP_LOW =>
      if rule.currentlyTriggered then
        decide ((currentTemp : Int) ≤ (rule.threshold : Int) + (rule.hysteresis : Int))
      else
        decide (currentTemp ≤ rule.threshold)
  | .TEMP_RANGE =>
      decide (currentTemp ≥ rule.threshold) && decide (currentTemp ≤ rule.thresholdHigh)
  | _ => false

/-- Action dispatch of `AutomationController::executeAction`: the callback
invocation it makes, if any.  Returns `none` exactly when the guard
`rule.relayId >= RELAY_COUNT` rejects the rule (the null-callback guard is
the `none` case of the caller supplying no callback, which we do not model:
the invocation list is what a non-null callback would receive). -/
def executeAction (rule : AutomationRule) (relayStates : Nat → Bool) :
    Option (Nat × Bool) :=
  if rule.relayId ≥ RELAY_COUNT then
    none
  else
    match rule.action with
    | .TURN_ON => some (rule.relayId, true)
    | .TURN_OFF => some (rule.relayId, false)
    | .TOGGLE => some (rule.relayId, !relayStates rule.relayId)

/-- Relay state an action requests: the `newState` computed by
`AutomationController::executeAction`. -/
def actionValue (rule : AutomationRule) (relayStates : Nat → Bool) : Bool :=
  match rule.action with
  | .TURN_ON => true
  | .TURN_OFF => false
  | .TOGGLE => !relayStates rule.relayId

/-- Body of the per-rule loop in `AutomationController::evaluate`: the
invocations made for this rule and the rule's updated state.  `now` is the
value of `millis()` used for `lastTriggerTime`. -/
def ruleStep (rule : AutomationRule) (currentTemp : Nat)
    (relayStates : Nat → Bool) (now : Nat) :
    List (Nat × Bool) × AutomationRule :=
  if !rule.enabled then
    ([], rule)
  else
    let conditionMet := evaluateCondition rule currentTemp
    if conditionMet && !rule.currentlyTriggered then
      ((executeAction rule relayStates).toList,
       { rule with currentlyTriggered := true, lastTriggerTime := now })
    else if !conditionMet && rule.currentlyTriggered then
      ([], { rule with currentlyTriggered := false })
    else
      ([], rule)

/-- `AutomationController::evaluate`: all callback invocations in order,
and the updated controller state. -/
def evaluate (ctrl : AutomationController) (currentTemp : Nat)
    (relayStates : Nat → Bool) (now : Nat) :
    List (Nat × Bool) × AutomationController :=
  if !ctrl.automationEnabled then
    ([], ctrl)
  else
    (ctrl.rules.flatMap (fun r => (ruleStep r currentTemp relayStates now).1),
     { ctrl with
        lastTemperature := currentTemp,
        rules := ctrl.rules.map (fun r => (ruleStep r currentTemp relayStates now).2) })

end AutomationController

/-! ## ScheduleController.cpp: schedule logic -/

namespace ScheduleController

/-- `ScheduleController::isDayMatch`: `dayOfWeek` is 1=Monday … 7=Sunday. -/
def isDayMatch (sched : Schedule) (dayOfWeek : Nat) : Bool :=
  sched.daysOfWeek &&& (1 <<< (dayOfWeek - 1)) != 0

/-- `ScheduleController::shouldScheduleBeActive`.  The `uint16_t`
minute arithmetic cannot wrap (at most `255 * 60 + 255 < 2 ^ 16`),
so plain `Nat` arithmetic is exact. -/
def shouldScheduleBeActive (sched : Schedule)
    (currentHour currentMin dayOfWeek : Nat) : Bool :=
  if !isDayMatch sched dayOfWeek then
    false
  else
    let currentMinutes := currentHour * 60 + currentMin
    let onMinutes := sched.onHour * 60 + sched.onMinute
    let offMinutes := sched.offHour * 60 + sched.offMinute
    if offMinutes < onMinutes then
      decide (currentMinutes ≥ onMinutes) || decide (currentMinutes < offMinutes)
    else
      decide (currentMinutes ≥ onMinutes) && decide (currentMinutes < offMinutes)

/-! ### Timers -/

/-- Wrapping 32-bit subtraction, as in `currentTime - timer.startTime`
on an `unsigned long` (32 bits on the target): the result is the
difference modulo `2 ^ 32`. -/
def sub32 (a b : Nat) : Nat :=
  (a % 2 ^ 32 + 2 ^ 32 - b % 2 ^ 32) % 2 ^ 32

/-- Expiry test of `ScheduleController::updateTimers`:
`elapsedSeconds >= timer.duration` with `elapsed = currentTime - startTime`
computed in wrapping 32-bit arithmetic and `elapsedSeconds = elapsed / 1000`. -/
def timerExpired (t : Timer) (now : Nat) : Bool :=
  decide (sub32 now t.startTime / 1000 ≥ t.duration)

/-- Body of the expiry loop in `ScheduleController::updateTimers` for one
slot: the invocation fired (if any) and the slot's updated state. -/
def fireStep (now : Nat) (t : Timer) : List (Nat × Bool) × Timer :=
  if t.enabled && timerExpired t now then
    ([(t.relayId, !t.turnOffWhenExpired)], { t with enabled := false })
  else
    ([], t)

/-- Compaction pass of `ScheduleController::updateTimers`: disabled slots
are overwritten by subsequent enabled entries and the count shrinks, which
on the logical prefix is exactly a filter keeping the enabled entries. -/
def compactTimers (ts : List Timer) : List Timer :=
  ts.filter (fun t => t.enabled)

/-- `ScheduleController::updateTimers` at time `now` (`millis()`): all
callback invocations in order, then the compacted timer list. -/
def updateTimers (ts : List Timer) (now : Nat) :
    List (Nat × Bool) × List Timer :=
  (ts.flatMap (fun t => (fireStep now t).1),
   compactTimers (ts.map (fun t => (fireStep now t).2)))

/-- `ScheduleController::cancelTimer`, fused with `findTimerIndex`:
clear the `enabled` flag of the first enabled timer for `relayId`
(the count is not decremented), reporting whether one was found. -/
def cancelTimer : List Timer → Nat → Bool × List Timer
  | [], _ => (false, [])
  | t :: rest, relayId =>
      if t.relayId == relayId && t.enabled then
        (true, { t with enabled := false } :: rest)
      else
        let r := cancelTimer rest relayId
        (r.1, t :: r.2)

/-- `ScheduleController::addTimer` at time `now` (`millis()`). -/
def addTimer (ts : List Timer) (relayId : Nat) (durationSeconds : Nat)
    (turnOffWhenExpired : Bool) (now : Nat) : Bool × List Timer :=
  if ts.length ≥ MAX_TIMERS then
    (false, ts)
  else if relayId ≥ RELAY_COUNT then
    (false, ts)
  else
    (true, (cancelTimer ts relayId).2 ++
      [{ relayId := relayId, startTime := now, duration := durationSeconds,
         turnOffWhenExpired := turnOffWhenExpired, enabled := true }])

/-- Enabled timers for a given relay, in slot order (the entries
`findTimerIndex` scans for). -/
def enabledFor (ts : List Timer) (relayId : Nat) : List Timer :=
  ts.filter (fun t => t.relayId == relayId && t.enabled)

/-- Timer states reachable through the public operations of
`ScheduleController`: the constructor's empty collection
(`clearAllTimers` also yields it), `addTimer`, `cancelTimer`, and the
`updateTimers` sweep run by `update`. -/
inductive TimerReachable : List Timer → Prop where
  | init : TimerReachable []
  | add (ts : List Timer) (relayId durationSeconds : Nat)
      (turnOffWhenExpired : Bool) (now : Nat) :
      TimerReachable ts →
      TimerReachable (addTimer ts relayId durationSeconds turnOffWhenExpired now).2
  | cancel (ts : List Timer) (relayId : Nat) :
      TimerReachable ts → TimerReachable (cancelTimer ts relayId).2
  | update (ts : List Timer) (now : Nat) :
      TimerReachable ts → TimerReachable (updateTimers ts now).2

/-! ### Schedule management -/

/-- `ScheduleController::addSchedule`. -/
def addSchedule (ss : List Schedule) (relayId onHour onMin offHour offMin days : Nat) :
    Bool × List Schedule :=
  if ss.length ≥ MAX_SCHEDULES then
    (false, ss)
  else if relayId ≥ RELAY_COUNT || onHour > 23 || offHour > 23 ||
          onMin > 59 || offMin > 59 then
    (false, ss)
  else
    (true, ss ++ [{ relayId := relayId, onHour := onHour, onMinute := onMin,
                    offHour := offHour, offMinute := offMin, daysOfWeek := days,
                    enabled := true, isActive := false }])

/-- `ScheduleController::removeSchedule`: the shift-down loop followed by
the count decrement deletes the entry at `index` from the logical prefix. -/
def removeSchedule (ss : List Schedule) (index : Nat) : Bool × List Schedule :=
  if index ≥ ss.length then
    (false, ss)
  else
    (true, ss.eraseIdx index)

/-- `ScheduleController::setScheduleEnabled`: a no-op when `index` is
not below the count. -/
def setScheduleEnabled : List Schedule → Nat → Bool → List Schedule
  | [], _, _ => []
  | s :: rest, 0, b => { s with enabled := b } :: rest
  | s :: rest, i + 1, b => s :: setScheduleEnabled rest i b

/-- `ScheduleController::getSchedule`: `nullptr` becomes `none`. -/
def getSchedule (ss : List Schedule) (index : Nat) : Option Schedule :=
  ss[index]?

end ScheduleController

/-- Schedule-activity predicate stated in the words of the specification
(for comparison with `shouldScheduleBeActive`, which is translated from
the source): the day bit `1 <<< (weekday - 1)` must be set in the day
bitmask, and with on/off times converted to minutes since midnight the
window test is wrap-around when `off < on` and half-open otherwise. -/
def scheduleActiveSpec (sched : Schedule) (hour minute weekday : Nat) : Prop :=
  sched.daysOfWeek &&& (1 <<< (weekday - 1)) ≠ 0 ∧
  (if sched.offHour * 60 + sched.offMinute < sched.onHour * 60 + sched.onMinute then
    hour * 60 + minute ≥ sched.onHour * 60 + sched.onMinute ∨
      hour * 60 + minute < sched.offHour * 60 + sched.offMinute
  else
    sched.onHour * 60 + sched.onMinute ≤ hour * 60 + minute ∧
      hour * 60 + minute < sched.offHour * 60 + sched.offMinute)

/-- Threshold-high condition stated in the words of the specification
(for comparison with `evaluateCondition`, which is translated from the
source): while not yet triggered the condition is `measurement ≥ threshold`;
once triggered it is `measurement ≥ threshold - hysteresis`, the
subtraction carried out in `Int` as the promoted C arithmetic does. -/
def tempHighConditionSpec (triggered : Bool) (threshold hysteresis measurement : Nat) : Prop :=
  if triggered then
    (measurement : Int) ≥ (threshold : Int) - (hysteresis : Int)
  else
    measurement ≥ threshold

/-! ## Rule management (AutomationController.cpp) -/

namespace AutomationController

/-- `AutomationController::addRule`.  The `threshold` argument is a
`uint8_t`, and `rule.thresholdHigh = threshold + 10` is computed in 8-bit
arithmetic, so both stored fields are reduced `% 2 ^ 8`. -/
def addRule (ctrl : AutomationController) (relayId : Nat) (tt : TriggerType)
    (action : ActionType) (threshold : Nat) : Bool × AutomationController :=
  if ctrl.rules.length ≥ MAX_AUTOMATION_RULES then
    (false, ctrl)
  else if relayId ≥ RELAY_COUNT then
    (false, ctrl)
  else
    (true, { ctrl with rules := ctrl.rules ++
      [{ relayId := relayId, triggerType := tt, action := action,
         threshold := threshold % 2 ^ 8,
         thresholdHigh := (threshold + 10) % 2 ^ 8,
         enabled := true, currentlyTriggered := false,
         hysteresis := TEMP_HYSTERESIS, lastTriggerTime := 0 }] })

/-- `AutomationController::removeRule`: the shift-down loop followed by
the count decrement deletes the entry at `index` from the logical prefix. -/
def removeRule (ctrl : AutomationController) (index : Nat) :
    Bool × AutomationController :=
  if index ≥ ctrl.rules.length then
    (false, ctrl)
  else
    (true, { ctrl with rules := ctrl.rules.eraseIdx index })

/-- List part of `AutomationController::setRuleEnabled`: a no-op when
`index` is not below the count. -/
def setEnabledAt : List AutomationRule → Nat → Bool → List AutomationRule
  | [], _, _ => []
  | r :: rest, 0, b => { r with enabled := b } :: rest
  | r :: rest, i + 1, b => r :: setEnabledAt rest i b

/-- `AutomationController::setRuleEnabled`. -/
def setRuleEnabled (ctrl : AutomationController) (index : Nat) (b : Bool) :
    AutomationController :=
  { ctrl with rules := setEnabledAt ctrl.rules index b }

/-- `AutomationController::getRule`: `nullptr` becomes `none`. -/
def getRule (ctrl : AutomationController) (index : Nat) : Option AutomationRule :=
  ctrl.rules[index]?

end AutomationController

/-! ## Persistence (SD card)

Both controllers serialize the same way: the count byte, then that many
fixed-size records.  A file is `some (count, records)`; a missing file or
a failed open is `none`.  `loadStore cap` is the common shape of
`AutomationController::loadFromSD` (with `cap = MAX_AUTOMATION_RULES`) and
`ScheduleController::loadFromSD` (with `cap = MAX_SCHEDULES`): on a count
above capacity the in-memory count is reset to 0 and the call fails before
any record is read; on a missing file or failed open the call fails with
the in-memory collection untouched. -/

def saveStore {α : Type} (l : List α) : Option (Nat × List α) :=
  some (l.length, l)

def loadStore {α : Type} (cap : Nat) (store : Option (Nat × List α))
    (old : List α) : Bool × List α :=
  match store with
  | none => (false, old)
  | some (cnt, recs) =>
      if cnt > cap then
        (false, [])
      else
        (true, recs.take cnt)

namespace AutomationController

/-- `AutomationController::saveToSD`: the byte store the successful save
produces (count byte, then each `AutomationRule` record). -/
def saveToSD (ctrl : AutomationController) : Option (Nat × List AutomationRule) :=
  saveStore ctrl.rules

/-- `AutomationController::loadFromSD`. -/
def loadFromSD (store : Option (Nat × List AutomationRule))
    (ctrl : AutomationController) : Bool × AutomationController :=
  let r := loadStore MAX_AUTOMATION_RULES store ctrl.rules
  (r.1, { ctrl with rules := r.2 })

end AutomationController

namespace ScheduleController

/-- `ScheduleController::saveToSD`: the byte store the successful save
produces (count byte, then each `Schedule` record). -/
def saveToSD (ss : List Schedule) : Option (Nat × List Schedule) :=
  saveStore ss

/-- `ScheduleController::loadFromSD`. -/
def loadFromSD (store : Option (Nat × List Schedule)) (old : List Schedule) :
    Bool × List Schedule :=
  loadStore MAX_SCHEDULES store old

end ScheduleController

/-! ## Theorems -/

/-- C3: for every schedule and every current time (hour ≤ 23, minute ≤ 59,
ISO weekday 1–7), `shouldScheduleBeActive` agrees with the specification's
window predicate — wrap-around `current ≥ on ∨ current < off` when
`off < on` (in minutes since midnight), half-open `on ≤ current < off`
otherwise, in both cases requiring the day bit `1 << (weekday - 1)` to be
set in the day bitmask — and a schedule whose on time equals its off time
is never active. -/
theorem shouldScheduleBeActive_spec (sched : Schedule) (hour minute weekday : Nat)
    (hh : hour ≤ 23) (hm : minute ≤ 59) (hw1 : 1 ≤ weekday) (hw7 : weekday ≤ 7) :
    (ScheduleController.shouldScheduleBeActive sched hour minute weekday = true ↔
      scheduleActiveSpec sched hour minute weekday) ∧
    (sched.onHour = sched.offHour → sched.onMinute = sched.offMinute →
      ScheduleController.shouldScheduleBeActive sched hour minute weekday = false) := by
  constructor
  · by_cases hd : sched.daysOfWeek &&& 1 <<< (weekday - 1) = 0
    · simp [ScheduleController.shouldScheduleBeActive, ScheduleController.isDayMatch,
        scheduleActiveSpec, hd]
    · have hb : (sched.daysOfWeek &&& 1 <<< (weekday - 1) != 0) = true := by
        simpa using hd
      simp only [ScheduleController.shouldScheduleBeActive, ScheduleController.isDayMatch,
        scheduleActiveSpec, hb, Bool.not_true, if_false]
      split_ifs <;> simp_all
  · intro h1 h2
    simp only [ScheduleController.shouldScheduleBeActive, ScheduleController.isDayMatch]
    split
    · rfl
    · rw [h1, h2]
      simp

/-- Witness for C3 at a concrete schedule whose on and off times coincide
(relay 0, on 08:00, off 08:00, daily mask 0x7F), queried at 09:00 on
Wednesday. -/
theorem shouldScheduleBeActive_spec_w :
    (ScheduleController.shouldScheduleBeActive
        ⟨0, 8, 0, 8, 0, 127, true, false⟩ 9 0 3 = true ↔
      scheduleActiveSpec ⟨0, 8, 0, 8, 0, 127, true, false⟩ 9 0 3) ∧
    ScheduleController.shouldScheduleBeActive
      ⟨0, 8, 0, 8, 0, 127, true, false⟩ 9 0 3 = false := by
  have h := shouldScheduleBeActive_spec ⟨0, 8, 0, 8, 0, 127, true, false⟩ 9 0 3
    (by decide) (by decide) (by decide) (by decide)
  exact ⟨h.1, h.2 rfl rfl⟩

/-- C1: for a rule with trigger kind `TEMP_HIGH`, `evaluateCondition`
agrees with the specification's hysteresis condition (`measurement ≥
threshold` while untriggered, `measurement ≥ threshold - hysteresis` once
triggered); consequently an enabled triggered rule passed a reading in
`[threshold - hysteresis, threshold)` stays triggered with no actuation,
and it detriggers exactly when a reading `< threshold - hysteresis`
is observed. -/
theorem evaluateCondition_tempHigh_spec (rule : AutomationRule) (temp : Nat)
    (relayStates : Nat → Bool) (now : Nat)
    (ht : rule.triggerType = TriggerType.TEMP_HIGH) :
    (AutomationController.evaluateCondition rule temp = true ↔
      tempHighConditionSpec rule.currentlyTriggered rule.threshold rule.hysteresis temp) ∧
    (rule.enabled = true → rule.currentlyTriggered = true →
      (rule.threshold : Int) - (rule.hysteresis : Int) ≤ (temp : Int) →
      (temp : Int) < (rule.threshold : Int) →
      AutomationController.ruleStep rule temp relayStates now = ([], rule)) ∧
    (rule.enabled = true → rule.currentlyTriggered = true →
      ((AutomationController.ruleStep rule temp relayStates now).2.currentlyTriggered = false ↔
        (temp : Int) < (rule.threshold : Int) - (rule.hysteresis : Int))) := by
  refine ⟨?_, ?_, ?_⟩
  · simp only [AutomationController.evaluateCondition, ht, tempHighConditionSpec]
    cases rule.currentlyTriggered <;> simp
  · intro he htr hlo hhi
    have hcond : AutomationController.evaluateCondition rule temp = true := by
      simp [AutomationController.evaluateCondition, ht, htr]
      omega
    simp [AutomationController.ruleStep, he, hcond, htr]
  · intro he htr
    by_cases hlo : (rule.threshold : Int) - (rule.hysteresis : Int) ≤ (temp : Int)
    · have hcond : AutomationController.evaluateCondition rule temp = true := by
        simp [AutomationController.evaluateCondition, ht, htr]
        omega
      simp [AutomationController.ruleStep, he, hcond, htr]
      omega
    · have hcond : AutomationController.evaluateCondition rule temp = false := by
        simp [AutomationController.evaluateCondition, ht, htr]
        omega
      simp [AutomationController.ruleStep, he, hcond, htr]
      omega

/-- Witness for C1 at a concrete triggered rule (threshold 28,
hysteresis 2) and the reading 27, inside the hysteresis band. -/
theorem evaluateCondition_tempHigh_spec_w :
    AutomationController.ruleStep
        ⟨2, TriggerType.TEMP_HIGH, ActionType.TURN_ON, 28, 38, true, true, 2, 0⟩
        27 (fun _ => false) 5 =
      ([], ⟨2, TriggerType.TEMP_HIGH, ActionType.TURN_ON, 28, 38, true, true, 2, 0⟩) ∧
    ((AutomationController.ruleStep
        ⟨2, TriggerType.TEMP_HIGH, ActionType.TURN_ON, 28, 38, true, true, 2, 0⟩
        27 (fun _ => false) 5).2.currentlyTriggered = false ↔
      (27 : Int) < (28 : Int) - (2 : Int)) := by
  have h := evaluateCondition_tempHigh_spec
    ⟨2, TriggerType.TEMP_HIGH, ActionType.TURN_ON, 28, 38, true, true, 2, 0⟩
    27 (fun _ => false) 5 rfl
  exact ⟨h.2.1 rfl rfl (by decide) (by decide), h.2.2 rfl rfl⟩

/-- Counterexample to C2 as stated: the enabled rule
`⟨relayId 5, TEMP_HIGH, TURN_ON, threshold 0, …, not triggered⟩` sees its
condition transition false→true at reading 30 inside `evaluate`, and its
triggered flag is set — yet no callback invocation occurs, because
`executeAction` rejects `relayId ≥ RELAY_COUNT` while `evaluate` still
marks the rule triggered. -/
theorem evaluate_out_of_range_relay_cex :
    AutomationController.evaluateCondition
      ⟨5, TriggerType.TEMP_HIGH, ActionType.TURN_ON, 0, 10, true, false, 2, 0⟩ 30 = true ∧
    (AutomationController.evaluate
      ⟨[⟨5, TriggerType.TEMP_HIGH, ActionType.TURN_ON, 0, 10, true, false, 2, 0⟩], true, 0⟩
      30 (fun _ => false) 0).1 = [] ∧
    (AutomationController.evaluate
      ⟨[⟨5, TriggerType.TEMP_HIGH, ActionType.TURN_ON, 0, 10, true, false, 2, 0⟩], true, 0⟩
      30 (fun _ => false) 0).2.rules =
      [⟨5, TriggerType.TEMP_HIGH, ActionType.TURN_ON, 0, 10, true, true, 2, 0⟩] :=
  ⟨rfl, rfl, rfl⟩

/-- C2 (amended: the rule's `relayId` must be a valid relay index, below
`RELAY_COUNT`; for an out-of-range `relayId` the flag and timestamp are
still set but no invocation occurs — see
`evaluate_out_of_range_relay_cex`): with automation globally disabled,
`evaluate` makes no invocations and changes no state; with it enabled,
`evaluate` is the concatenation of the per-rule steps, and for every
enabled rule with a valid `relayId` the step invokes the callback exactly
once on a false→true condition transition (setting the triggered flag and
the trigger timestamp), clears the flag with no invocation on a
true→false transition, and does nothing while the flag and the condition
both hold. -/
theorem evaluate_edge_triggered (ctrl : AutomationController) (temp : Nat)
    (relayStates : Nat → Bool) (now : Nat) :
    (ctrl.automationEnabled = false →
      AutomationController.evaluate ctrl temp relayStates now = ([], ctrl)) ∧
    (ctrl.automationEnabled = true →
      AutomationController.evaluate ctrl temp relayStates now =
        (ctrl.rules.flatMap
          (fun r => (AutomationController.ruleStep r temp relayStates now).1),
         { ctrl with
            lastTemperature := temp,
            rules := ctrl.rules.map
              (fun r => (AutomationController.ruleStep r temp relayStates now).2) })) ∧
    (∀ r : AutomationRule, r.enabled = true → r.relayId < RELAY_COUNT →
      (AutomationController.evaluateCondition r temp = true →
        r.currentlyTriggered = false →
        AutomationController.ruleStep r temp relayStates now =
          ([(r.relayId, AutomationController.actionValue r relayStates)],
           { r with currentlyTriggered := true, lastTriggerTime := now })) ∧
      (AutomationController.evaluateCondition r temp = false →
        r.currentlyTriggered = true →
        AutomationController.ruleStep r temp relayStates now =
          ([], { r with currentlyTriggered := false })) ∧
      (AutomationController.evaluateCondition r temp = true →
        r.currentlyTriggered = true →
        AutomationController.ruleStep r temp relayStates now = ([], r))) := by
  refine ⟨?_, ?_, ?_⟩
  · intro h
    simp [AutomationController.evaluate, h]
  · intro h
    simp [AutomationController.evaluate, h]
  · intro r he hr
    refine ⟨?_, ?_, ?_⟩
    · intro hc htr
      simp only [AutomationController.ruleStep, he, hc, htr, Bool.not_true, Bool.not_false,
        Bool.and_true, Bool.and_false, if_false, if_true, Bool.true_and, Bool.false_and]
      simp only [AutomationController.executeAction, Nat.not_le.mpr hr, ge_iff_le, if_neg,
        AutomationController.actionValue]
      cases hact : r.action <;> simp [Nat.not_le.mpr hr]
    · intro hc htr
      simp [AutomationController.ruleStep, he, hc, htr]
    · intro hc htr
      simp [AutomationController.ruleStep, he, hc, htr]

/-- Witness for C2 at concrete inputs: a disabled controller is left
unchanged with no invocations; a concrete enabled, untriggered rule with
valid relay 2 whose condition holds fires exactly one invocation; a
concrete triggered rule whose condition fails clears its flag silently;
a concrete triggered rule whose condition holds is left alone. -/
theorem evaluate_edge_triggered_w :
    (AutomationController.evaluate ⟨[], false, 0⟩ 25 (fun _ => false) 3 =
      ([], ⟨[], false, 0⟩)) ∧
    (AutomationController.ruleStep
        ⟨2, TriggerType.TEMP_HIGH, ActionType.TURN_ON, 28, 38, true, false, 2, 0⟩
        30 (fun _ => false) 7 =
      ([(2, true)],
       ⟨2, TriggerType.TEMP_HIGH, ActionType.TURN_ON, 28, 38, true, true, 2, 7⟩)) ∧
    (AutomationController.ruleStep
        ⟨2, TriggerType.TEMP_HIGH, ActionType.TURN_ON, 28, 38, true, true, 2, 0⟩
        20 (fun _ => false) 7 =
      ([], ⟨2, TriggerType.TEMP_HIGH, ActionType.TURN_ON, 28, 38, true, false, 2, 0⟩)) ∧
    (AutomationController.ruleStep
        ⟨2, TriggerType.TEMP_HIGH, ActionType.TURN_ON, 28, 38, true, true, 2, 0⟩
        27 (fun _ => false) 7 =
      ([], ⟨2, TriggerType.TEMP_HIGH, ActionType.TURN_ON, 28, 38, true, true, 2, 0⟩)) := by
  refine ⟨(evaluate_edge_triggered ⟨[], false, 0⟩ 25 (fun _ => false) 3).1 rfl, ?_, ?_, ?_⟩
  · exact ((evaluate_edge_triggered ⟨[], true, 0⟩ 30 (fun _ => false) 7).2.2
      ⟨2, TriggerType.TEMP_HIGH, ActionType.TURN_ON, 28, 38, true, false, 2, 0⟩
      rfl (by decide)).1 (by decide) rfl
  · exact ((evaluate_edge_triggered ⟨[], true, 0⟩ 20 (fun _ => false) 7).2.2
      ⟨2, TriggerType.TEMP_HIGH, ActionType.TURN_ON, 28, 38, true, true, 2, 0⟩
      rfl (by decide)).2.1 (by decide) rfl
  · exact ((evaluate_edge_triggered ⟨[], true, 0⟩ 27 (fun _ => false) 7).2.2
      ⟨2, TriggerType.TEMP_HIGH, ActionType.TURN_ON, 28, 38, true, true, 2, 0⟩
      rfl (by decide)).2.2 (by decide) rfl

/-- Invocations of one `updateTimers` sweep: one per enabled expired
timer, in slot order, each carrying the relay id and the negated
`turnOffWhenExpired` flag. -/
theorem updateTimers_fst_eq (ts : List Timer) (now : Nat) :
    (ScheduleController.updateTimers ts now).1 =
      (ts.filter fun t => t.enabled && ScheduleController.timerExpired t now).map
        (fun t => (t.relayId, !t.turnOffWhenExpired)) := by
  induction ts with
  | nil => rfl
  | cons t rest ih =>
    cases he : t.enabled <;> cases hx : ScheduleController.timerExpired t now <;>
      simpa [ScheduleController.updateTimers, ScheduleController.fireStep, he, hx,
        List.filter_cons] using ih

/-- Timer list after one `updateTimers` sweep: exactly the enabled,
not-yet-expired slots, in their original order. -/
theorem updateTimers_snd_eq (ts : List Timer) (now : Nat) :
    (ScheduleController.updateTimers ts now).2 =
      ts.filter (fun t => t.enabled && !ScheduleController.timerExpired t now) := by
  induction ts with
  | nil => rfl
  | cons t rest ih =>
    cases he : t.enabled <;> cases hx : ScheduleController.timerExpired t now <;>
      simpa [ScheduleController.updateTimers, ScheduleController.compactTimers,
        ScheduleController.fireStep, he, hx, List.filter_cons] using ih

/-- C4: one `updateTimers` sweep at time `now` fires exactly one
invocation `(relayId, NOT turnOffWhenExpired)` for each enabled timer
whose wrapped elapsed milliseconds divided by 1000 reach its duration,
disables it, and compacts the collection in place: the surviving list is
the order-preserving filter of the enabled unexpired slots, its length
never grows, and a fired timer is gone from the collection, so no later
sweep can fire it again. -/
theorem updateTimers_spec (ts : List Timer) (now : Nat) :
    (ScheduleController.updateTimers ts now).1 =
      (ts.filter fun t => t.enabled && ScheduleController.timerExpired t now).map
        (fun t => (t.relayId, !t.turnOffWhenExpired)) ∧
    (ScheduleController.updateTimers ts now).2 =
      ts.filter (fun t => t.enabled && !ScheduleController.timerExpired t now) ∧
    (ScheduleController.updateTimers ts now).2.length ≤ ts.length ∧
    (∀ t ∈ ts, t.enabled = true → ScheduleController.timerExpired t now = true →
      t ∉ (ScheduleController.updateTimers ts now).2) := by
  refine ⟨updateTimers_fst_eq ts now, updateTimers_snd_eq ts now, ?_, ?_⟩
  · rw [updateTimers_snd_eq]
    exact List.length_filter_le _ ts
  · intro t _ he hx hmem
    rw [updateTimers_snd_eq] at hmem
    have := (List.mem_filter.mp hmem).2
    simp [he, hx] at this

/-- Witness for C4: a single enabled 10-second timer started at 0 has
expired by `millis() = 10000` and is gone from the compacted collection. -/
theorem updateTimers_spec_w :
    (⟨1, 0, 10, true, true⟩ : Timer) ∉
      (ScheduleController.updateTimers [⟨1, 0, 10, true, true⟩] 10000).2 :=
  (updateTimers_spec [⟨1, 0, 10, true, true⟩] 10000).2.2.2
    ⟨1, 0, 10, true, true⟩ (by decide) rfl (by decide)

/-- Cancelling a relay's timer disables exactly the first enabled entry
for that relay, so the relay's enabled entries lose their head. -/
theorem enabledFor_cancel_self (ts : List Timer) (r : Nat) :
    ScheduleController.enabledFor (ScheduleController.cancelTimer ts r).2 r =
      (ScheduleController.enabledFor ts r).drop 1 := by
  induction ts with
  | nil => rfl
  | cons t rest ih =>
    by_cases h : (t.relayId == r && t.enabled) = true
    · simp [ScheduleController.cancelTimer, h, ScheduleController.enabledFor,
        List.filter_cons]
    · simp only [ScheduleController.cancelTimer, h, if_false,
        ScheduleController.enabledFor, List.filter_cons] at ih ⊢
      simp [h, ih]

/-- Cancelling a relay's timer leaves every other relay's enabled
entries unchanged. -/
theorem enabledFor_cancel_other (ts : List Timer) (r q : Nat) (hq : q ≠ r) :
    ScheduleController.enabledFor (ScheduleController.cancelTimer ts r).2 q =
      ScheduleController.enabledFor ts q := by
  induction ts with
  | nil => rfl
  | cons t rest ih =>
    by_cases h : (t.relayId == r && t.enabled) = true
    · have hr : t.relayId = r ∧ t.enabled = true := by
        simpa [Bool.and_eq_true] using h
      have hne : (t.relayId == q) = false := by
        simp [hr.1]
        omega
      simp [ScheduleController.cancelTimer, h, ScheduleController.enabledFor,
        List.filter_cons, hne]
    · simp only [ScheduleController.cancelTimer, h, if_false,
        ScheduleController.enabledFor, List.filter_cons] at ih ⊢
      by_cases hp : (t.relayId == q && t.enabled) = true <;> simp [hp, ih]

/-- A filter applied after another filter never keeps more entries than
it would keep alone. -/
theorem length_filter_filter_le {α : Type} (p q : α → Bool) (l : List α) :
    ((l.filter q).filter p).length ≤ (l.filter p).length := by
  induction l with
  | nil => simp
  | cons a rest ih =>
    cases hq : q a <;> cases hp : p a <;>
      simp [List.filter_cons, hq, hp, -List.filter_filter] <;>
      omega

/-- The enabled entries of an appended timer list split at the seam. -/
theorem enabledFor_append (xs ys : List Timer) (q : Nat) :
    ScheduleController.enabledFor (xs ++ ys) q =
      ScheduleController.enabledFor xs q ++ ScheduleController.enabledFor ys q := by
  simp [ScheduleController.enabledFor, List.filter_append]

/-- The freshly inserted timer is an enabled entry for its own relay. -/
theorem enabledFor_new_self (r d : Nat) (f : Bool) (now : Nat) :
    ScheduleController.enabledFor [⟨r, now, d, f, true⟩] r = [⟨r, now, d, f, true⟩] := by
  simp [ScheduleController.enabledFor, List.filter_cons]

/-- The freshly inserted timer is not an enabled entry for other relays. -/
theorem enabledFor_new_other (r d : Nat) (f : Bool) (now q : Nat) (hq : q ≠ r) :
    ScheduleController.enabledFor [⟨r, now, d, f, true⟩] q = [] := by
  simp [ScheduleController.enabledFor, List.filter_cons]
  omega

/-- An `updateTimers` sweep never increases a relay's enabled entries. -/
theorem enabledFor_update_le (ts : List Timer) (now : Nat) (q : Nat) :
    (ScheduleController.enabledFor (ScheduleController.updateTimers ts now).2 q).length ≤
      (ScheduleController.enabledFor ts q).length := by
  rw [updateTimers_snd_eq]
  exact length_filter_filter_le _ _ ts

/-- A successful `addTimer` leaves the target relay with exactly the new
entry enabled, provided it held at most one before. -/
theorem addTimer_success_enabledFor (ts : List Timer) (r d : Nat) (f : Bool) (now : Nat)
    (hinv : (ScheduleController.enabledFor ts r).length ≤ 1)
    (hs : (ScheduleController.addTimer ts r d f now).1 = true) :
    ScheduleController.enabledFor (ScheduleController.addTimer ts r d f now).2 r =
      [⟨r, now, d, f, true⟩] := by
  unfold ScheduleController.addTimer at hs ⊢
  split at hs
  · simp at hs
  · split at hs
    · simp at hs
    · rw [if_neg (by omega), if_neg (by omega)]
      rw [enabledFor_append, enabledFor_cancel_self, enabledFor_new_self]
      have hnil : (ScheduleController.enabledFor ts r).drop 1 = [] := by
        have := List.length_drop 1 (ScheduleController.enabledFor ts r)
        exact List.eq_nil_of_length_eq_zero (by omega)
      rw [hnil]
      rfl

/-- Preservation of the at-most-one-enabled-timer-per-relay invariant by
`addTimer`. -/
theorem timerInv_add (ts : List Timer) (r d : Nat) (f : Bool) (now : Nat)
    (hinv : ∀ q, (ScheduleController.enabledFor ts q).length ≤ 1) :
    ∀ q, (ScheduleController.enabledFor
      (ScheduleController.addTimer ts r d f now).2 q).length ≤ 1 := by
  intro q
  unfold ScheduleController.addTimer
  split
  · exact hinv q
  · split
    · exact hinv q
    · rw [enabledFor_append]
      by_cases hq : q = r
      · subst hq
        rw [enabledFor_cancel_self, enabledFor_new_self]
        have := hinv q
        have hlen := List.length_drop 1 (ScheduleController.enabledFor ts q)
        simp only [List.length_append, List.length_singleton]
        omega
      · rw [enabledFor_cancel_other ts r q hq, enabledFor_new_other r d f now q hq]
        simpa using hinv q

/-- The at-most-one-enabled-timer-per-relay invariant holds in every
reachable timer state. -/
theorem timerInv_reachable (ts : List Timer) (h : ScheduleController.TimerReachable ts) :
    ∀ q, (ScheduleController.enabledFor ts q).length ≤ 1 := by
  induction h with
  | init => intro q; simp [ScheduleController.enabledFor]
  | add ts r d f now _ ih => exact timerInv_add ts r d f now ih
  | cancel ts r _ ih =>
      intro q
      by_cases hq : q = r
      · subst hq
        rw [enabledFor_cancel_self]
        have := ih q
        have hlen := List.length_drop 1 (ScheduleController.enabledFor ts q)
        omega
      · rw [enabledFor_cancel_other ts r q hq]
        exact ih q
  | update ts now _ ih =>
      intro q
      exact le_trans (enabledFor_update_le ts now q) (ih q)

/-- C5: in every timer state reachable through the public operations each
relay has at most one enabled timer; a successful `addTimer` (its implicit
`cancelTimer` first disabling any prior enabled timer of the target relay)
leaves the relay with exactly one enabled timer carrying the new duration
and expiry flag; and `cancelTimer` and `updateTimers` preserve the
invariant. -/
theorem timer_unique_per_relay :
    (∀ ts, ScheduleController.TimerReachable ts →
      ∀ q, (ScheduleController.enabledFor ts q).length ≤ 1) ∧
    (∀ ts (r d : Nat) (f : Bool) (now : Nat), ScheduleController.TimerReachable ts →
      (ScheduleController.addTimer ts r d f now).1 = true →
      ScheduleController.enabledFor (ScheduleController.addTimer ts r d f now).2 r =
        [⟨r, now, d, f, true⟩]) ∧
    (∀ ts (r : Nat), (∀ q, (ScheduleController.enabledFor ts q).length ≤ 1) →
      ∀ q, (ScheduleController.enabledFor
        (ScheduleController.cancelTimer ts r).2 q).length ≤ 1) ∧
    (∀ ts (now : Nat), (∀ q, (ScheduleController.enabledFor ts q).length ≤ 1) →
      ∀ q, (ScheduleController.enabledFor
        (ScheduleController.updateTimers ts now).2 q).length ≤ 1) := by
  refine ⟨timerInv_reachable, ?_, ?_, ?_⟩
  · intro ts r d f now h hs
    exact addTimer_success_enabledFor ts r d f now (timerInv_reachable ts h r) hs
  · intro ts r hinv q
    by_cases hq : q = r
    · subst hq
      rw [enabledFor_cancel_self]
      have := hinv q
      have hlen := List.length_drop 1 (ScheduleController.enabledFor ts q)
      omega
    · rw [enabledFor_cancel_other ts r q hq]
      exact hinv q
  · intro ts now hinv q
    exact le_trans (enabledFor_update_le ts now q) (hinv q)

/-- Witness for C5: from the reachable empty state, a 60-second timer for
relay 3 added at `millis() = 100` leaves relay 3 with exactly that one
enabled timer. -/
theorem timer_unique_per_relay_w :
    (ScheduleController.enabledFor ([] : List Timer) 3).length ≤ 1 ∧
    ScheduleController.enabledFor
        (ScheduleController.addTimer [] 3 60 true 100).2 3 =
      [⟨3, 100, 60, true, true⟩] :=
  ⟨timer_unique_per_relay.1 [] ScheduleController.TimerReachable.init 3,
   timer_unique_per_relay.2.1 [] 3 60 true 100
     ScheduleController.TimerReachable.init rfl⟩

/-- Counterexample to C6 as stated: with the automation file missing
(store `none`) and one rule in memory, `loadFromSD` returns failure but
does NOT reset the collection — the logical count stays 1, not 0.  Only
the corrupt-count case resets. -/
theorem loadFromSD_missing_not_reset_cex :
    (AutomationController.loadFromSD none
      ⟨[⟨0, TriggerType.TEMP_HIGH, ActionType.TURN_ON, 28, 38, true, false, 2, 0⟩],
       true, 0⟩).1 = false ∧
    (AutomationController.loadFromSD none
      ⟨[⟨0, TriggerType.TEMP_HIGH, ActionType.TURN_ON, 28, 38, true, false, 2, 0⟩],
       true, 0⟩).2.rules.length = 1 :=
  ⟨rfl, rfl⟩

/-- C6 (amended: only a stored count exceeding capacity resets the
collection; a missing file or failed open returns failure with the
in-memory collection left unchanged — see
`loadFromSD_missing_not_reset_cex`): a stored count above
`MAX_AUTOMATION_RULES` (resp. `MAX_SCHEDULES`) makes `loadFromSD` reset
the collection to empty — zero entries loaded, never a partial load or an
out-of-bounds write — and return failure; a missing file or failed open
makes it return failure without touching the collection. -/
theorem loadFromSD_failure_spec :
    (∀ ctrl : AutomationController,
      AutomationController.loadFromSD none ctrl = (false, ctrl)) ∧
    (∀ (cnt : Nat) (recs : List AutomationRule) (ctrl : AutomationController),
      cnt > MAX_AUTOMATION_RULES →
      AutomationController.loadFromSD (some (cnt, recs)) ctrl =
        (false, { ctrl with rules := [] })) ∧
    (∀ old : List Schedule,
      ScheduleController.loadFromSD none old = (false, old)) ∧
    (∀ (cnt : Nat) (recs : List Schedule) (old : List Schedule),
      cnt > MAX_SCHEDULES →
      ScheduleController.loadFromSD (some (cnt, recs)) old = (false, [])) := by
  refine ⟨fun ctrl => rfl, ?_, fun old => rfl, ?_⟩
  · intro cnt recs ctrl h
    simp [AutomationController.loadFromSD, loadStore, h]
  · intro cnt recs old h
    simp [ScheduleController.loadFromSD, loadStore, h]

/-- Witness for C6 (amended) at concrete inputs: a stored rule count of 6
(capacity 5) empties the rule collection; a stored schedule count of 7
(capacity 6) empties the schedule collection; a missing file leaves a
one-rule collection untouched. -/
theorem loadFromSD_failure_spec_w :
    AutomationController.loadFromSD (some (6, [])) ⟨[], true, 0⟩ =
      (false, ⟨[], true, 0⟩) ∧
    ScheduleController.loadFromSD (some (7, []))
      [⟨0, 8, 0, 17, 30, 127, true, false⟩] = (false, []) ∧
    AutomationController.loadFromSD none ⟨[], false, 9⟩ = (false, ⟨[], false, 9⟩) :=
  ⟨loadFromSD_failure_spec.2.1 6 [] ⟨[], true, 0⟩ (by decide),
   loadFromSD_failure_spec.2.2.2 7 [] [⟨0, 8, 0, 17, 30, 127, true, false⟩] (by decide),
   loadFromSD_failure_spec.1 ⟨[], false, 9⟩⟩

/-- C7: for every in-memory rule sequence (into any prior controller
state) and every schedule sequence of length up to capacity, `saveToSD`
followed by `loadFromSD` over the resulting byte store succeeds and
reproduces the identical ordered sequence, record for record. -/
theorem save_load_roundtrip :
    (∀ ctrl old : AutomationController,
      ctrl.rules.length ≤ MAX_AUTOMATION_RULES →
      AutomationController.loadFromSD (AutomationController.saveToSD ctrl) old =
        (true, { old with rules := ctrl.rules })) ∧
    (∀ ss old : List Schedule, ss.length ≤ MAX_SCHEDULES →
      ScheduleController.loadFromSD (ScheduleController.saveToSD ss) old =
        (true, ss)) := by
  constructor
  · intro ctrl old h
    have hn : ¬ ctrl.rules.length > MAX_AUTOMATION_RULES := by omega
    simp [AutomationController.loadFromSD, AutomationController.saveToSD,
      saveStore, loadStore, hn, List.take_length]
  · intro ss old h
    have hn : ¬ ss.length > MAX_SCHEDULES := by omega
    simp [ScheduleController.loadFromSD, ScheduleController.saveToSD,
      saveStore, loadStore, hn, List.take_length]

/-- Witness for C7: a one-rule controller and a full-capacity (six)
schedule list each round-trip through the byte store unchanged. -/
theorem save_load_roundtrip_w :
    AutomationController.loadFromSD
      (AutomationController.saveToSD
        ⟨[⟨0, TriggerType.TEMP_HIGH, ActionType.TURN_ON, 28, 38, true, false, 2, 0⟩],
         true, 20⟩)
      ⟨[], false, 0⟩ =
      (true,
       ⟨[⟨0, TriggerType.TEMP_HIGH, ActionType.TURN_ON, 28, 38, true, false, 2, 0⟩],
        false, 0⟩) ∧
    ScheduleController.loadFromSD
      (ScheduleController.saveToSD
        [⟨0, 8, 0, 17, 30, 127, true, false⟩, ⟨1, 0, 0, 1, 0, 1, true, false⟩,
         ⟨2, 22, 0, 6, 0, 96, true, false⟩, ⟨3, 12, 15, 12, 45, 31, false, false⟩,
         ⟨4, 5, 5, 5, 5, 127, true, true⟩, ⟨0, 23, 59, 0, 0, 64, true, false⟩])
      [] =
      (true,
       [⟨0, 8, 0, 17, 30, 127, true, false⟩, ⟨1, 0, 0, 1, 0, 1, true, false⟩,
        ⟨2, 22, 0, 6, 0, 96, true, false⟩, ⟨3, 12, 15, 12, 45, 31, false, false⟩,
        ⟨4, 5, 5, 5, 5, 127, true, true⟩, ⟨0, 23, 59, 0, 0, 64, true, false⟩]) :=
  ⟨save_load_roundtrip.1
     ⟨[⟨0, TriggerType.TEMP_HIGH, ActionType.TURN_ON, 28, 38, true, false, 2, 0⟩],
      true, 20⟩ ⟨[], false, 0⟩ (by decide),
   save_load_roundtrip.2
     [⟨0, 8, 0, 17, 30, 127, true, false⟩, ⟨1, 0, 0, 1, 0, 1, true, false⟩,
      ⟨2, 22, 0, 6, 0, 96, true, false⟩, ⟨3, 12, 15, 12, 45, 31, false, false⟩,
      ⟨4, 5, 5, 5, 5, 127, true, true⟩, ⟨0, 23, 59, 0, 0, 64, true, false⟩]
     [] (by decide)⟩

/-- Counterexample to C8 as stated: `addRule` accepts threshold 250 for a
range rule, and the 8-bit computation `threshold + 10` wraps to 4, so the
stored rule violates `threshold ≤ thresholdHigh` in a state reachable by
one public operation from the initial state. -/
theorem addRule_range_wrap_cex :
    (AutomationController.addRule ⟨[], true, 0⟩ 0
      TriggerType.TEMP_RANGE ActionType.TURN_ON 250).1 = true ∧
    (AutomationController.addRule ⟨[], true, 0⟩ 0
      TriggerType.TEMP_RANGE ActionType.TURN_ON 250).2.rules =
      [⟨0, TriggerType.TEMP_RANGE, ActionType.TURN_ON, 250, 4, true, false, 2, 0⟩] ∧
    ¬ (250 : Nat) ≤ 4 :=
  ⟨rfl, rfl, by decide⟩

/-- C8 (amended: the invariant holds for the rules `addRule` creates from
a threshold of at most 245, i.e. whenever `threshold + 10` does not wrap
in the 8-bit arithmetic; for thresholds 246–255 the stored rule violates
it — see `addRule_range_wrap_cex`): every successful `addRule` with
`threshold ≤ 245` appends a rule whose `thresholdHigh` is
`threshold + 10`, which satisfies `threshold ≤ thresholdHigh`. -/
theorem addRule_range_invariant (ctrl : AutomationController) (relayId : Nat)
    (tt : TriggerType) (act : ActionType) (th : Nat) (hth : th ≤ 245)
    (hs : (AutomationController.addRule ctrl relayId tt act th).1 = true) :
    (AutomationController.addRule ctrl relayId tt act th).2.rules =
      ctrl.rules ++ [⟨relayId, tt, act, th, th + 10, true, false, TEMP_HYSTERESIS, 0⟩] ∧
    th ≤ th + 10 := by
  unfold AutomationController.addRule at hs ⊢
  split at hs
  · simp at hs
  · split at hs
    · simp at hs
    · rw [if_neg (by omega), if_neg (by omega)]
      refine ⟨?_, by omega⟩
      have h1 : th % 2 ^ 8 = th := Nat.mod_eq_of_lt (by omega)
      have h2 : (th + 10) % 2 ^ 8 = (th + 10) := Nat.mod_eq_of_lt (by omega)
      rw [h1, h2]

/-- Witness for C8 (amended) at threshold 28: the created range rule
carries `thresholdHigh = 38` and satisfies the invariant. -/
theorem addRule_range_invariant_w :
    (AutomationController.addRule ⟨[], true, 0⟩ 2
      TriggerType.TEMP_RANGE ActionType.TURN_ON 28).2.rules =
      [⟨2, TriggerType.TEMP_RANGE, ActionType.TURN_ON, 28, 38, true, false, 2, 0⟩] ∧
    (28 : Nat) ≤ 38 := by
  have h := addRule_range_invariant ⟨[], true, 0⟩ 2
    TriggerType.TEMP_RANGE ActionType.TURN_ON 28 (by decide) rfl
  simpa using h

/-- Setting the enabled flag of a rule index at or past the count changes
nothing. -/
theorem setEnabledAt_oob (l : List AutomationRule) (i : Nat) (b : Bool)
    (h : l.length ≤ i) : AutomationController.setEnabledAt l i b = l := by
  induction l generalizing i with
  | nil => cases i <;> rfl
  | cons r rest ih =>
    cases i with
    | zero => simp at h
    | succ j =>
        simp only [AutomationController.setEnabledAt]
        rw [ih j (by simpa using h)]

/-- Setting the enabled flag of a schedule index at or past the count
changes nothing. -/
theorem setScheduleEnabled_oob (l : List Schedule) (i : Nat) (b : Bool)
    (h : l.length ≤ i) : ScheduleController.setScheduleEnabled l i b = l := by
  induction l generalizing i with
  | nil => cases i <;> rfl
  | cons s rest ih =>
    cases i with
    | zero => simp at h
    | succ j =>
        simp only [ScheduleController.setScheduleEnabled]
        rw [ih j (by simpa using h)]

/-- C9: `addRule` and `addSchedule` fail and leave the engine state
unchanged at capacity, on an out-of-range relay id, or (for schedules) on
an hour above 23 or minute above 59; `removeRule`/`removeSchedule` fail
on an index at or past the count and otherwise delete the indexed entry,
shifting the subsequent entries down in order and decrementing the count;
`setRuleEnabled`/`setScheduleEnabled` are no-ops and
`getRule`/`getSchedule` return null on an out-of-range index. -/
theorem management_error_handling :
    (∀ (ctrl : AutomationController) (r : Nat) (tt : TriggerType) (act : ActionType)
        (th : Nat),
      ctrl.rules.length ≥ MAX_AUTOMATION_RULES ∨ r ≥ RELAY_COUNT →
      AutomationController.addRule ctrl r tt act th = (false, ctrl)) ∧
    (∀ (ss : List Schedule) (r onH onM offH offM d : Nat),
      ss.length ≥ MAX_SCHEDULES ∨ r ≥ RELAY_COUNT ∨ onH > 23 ∨ offH > 23 ∨
        onM > 59 ∨ offM > 59 →
      ScheduleController.addSchedule ss r onH onM offH offM d = (false, ss)) ∧
    (∀ (ctrl : AutomationController) (i : Nat), i ≥ ctrl.rules.length →
      AutomationController.removeRule ctrl i = (false, ctrl)) ∧
    (∀ (ctrl : AutomationController) (i : Nat), i < ctrl.rules.length →
      AutomationController.removeRule ctrl i =
        (true, { ctrl with rules := ctrl.rules.take i ++ ctrl.rules.drop (i + 1) }) ∧
      (AutomationController.removeRule ctrl i).2.rules.length + 1 =
        ctrl.rules.length) ∧
    (∀ (ss : List Schedule) (i : Nat), i ≥ ss.length →
      ScheduleController.removeSchedule ss i = (false, ss)) ∧
    (∀ (ss : List Schedule) (i : Nat), i < ss.length →
      ScheduleController.removeSchedule ss i =
        (true, ss.take i ++ ss.drop (i + 1)) ∧
      (ScheduleController.removeSchedule ss i).2.length + 1 = ss.length) ∧
    (∀ (ctrl : AutomationController) (i : Nat) (b : Bool), i ≥ ctrl.rules.length →
      AutomationController.setRuleEnabled ctrl i b = ctrl) ∧
    (∀ (ss : List Schedule) (i : Nat) (b : Bool), i ≥ ss.length →
      ScheduleController.setScheduleEnabled ss i b = ss) ∧
    (∀ (ctrl : AutomationController) (i : Nat), i ≥ ctrl.rules.length →
      AutomationController.getRule ctrl i = none) ∧
    (∀ (ss : List Schedule) (i : Nat), i ≥ ss.length →
      ScheduleController.getSchedule ss i = none) := by
  refine ⟨?_, ?_, ?_, ?_, ?_, ?_, ?_, ?_, ?_, ?_⟩
  · intro ctrl r tt act th h
    unfold AutomationController.addRule
    rcases h with h | h
    · rw [if_pos h]
    · by_cases h1 : ctrl.rules.length ≥ MAX_AUTOMATION_RULES
      · rw [if_pos h1]
      · rw [if_neg h1, if_pos h]
  · intro ss r onH onM offH offM d h
    unfold ScheduleController.addSchedule
    by_cases h1 : ss.length ≥ MAX_SCHEDULES
    · rw [if_pos h1]
    · rw [if_neg h1]
      rcases h with h | h | h | h | h | h
      · exact absurd h h1
      all_goals simp [h]
  · intro ctrl i h
    unfold AutomationController.removeRule
    rw [if_pos h]
  · intro ctrl i h
    have heq := List.eraseIdx_eq_take_drop_succ ctrl.rules i
    constructor
    · unfold AutomationController.removeRule
      rw [if_neg (by omega), heq]
    · unfold AutomationController.removeRule
      rw [if_neg (by omega)]
      exact List.length_eraseIdx_add_one h
  · intro ss i h
    unfold ScheduleController.removeSchedule
    rw [if_pos h]
  · intro ss i h
    have heq := List.eraseIdx_eq_take_drop_succ ss i
    constructor
    · unfold ScheduleController.removeSchedule
      rw [if_neg (by omega), heq]
    · unfold ScheduleController.removeSchedule
      rw [if_neg (by omega)]
      exact List.length_eraseIdx_add_one h
  · intro ctrl i b h
    unfold AutomationController.setRuleEnabled
    rw [setEnabledAt_oob ctrl.rules i b h]
  · intro ss i b h
    exact setScheduleEnabled_oob ss i b h
  · intro ctrl i h
    exact List.getElem?_eq_none h
  · intro ss i h
    exact List.getElem?_eq_none h

/-- Witness for C9 at concrete inputs: adding a sixth rule to a full
five-rule controller fails without mutation; adding a schedule with
minute 60 fails; removing index 0 of a two-schedule list keeps the second
entry and drops the count to one; enable/get on an empty controller at
index 0 are a no-op and `none`. -/
theorem management_error_handling_w :
    AutomationController.addRule
      ⟨[⟨0, TriggerType.TEMP_HIGH, ActionType.TURN_ON, 28, 38, true, false, 2, 0⟩,
        ⟨1, TriggerType.TEMP_HIGH, ActionType.TURN_ON, 28, 38, true, false, 2, 0⟩,
        ⟨2, TriggerType.TEMP_HIGH, ActionType.TURN_ON, 28, 38, true, false, 2, 0⟩,
        ⟨3, TriggerType.TEMP_HIGH, ActionType.TURN_ON, 28, 38, true, false, 2, 0⟩,
        ⟨4, TriggerType.TEMP_HIGH, ActionType.TURN_ON, 28, 38, true, false, 2, 0⟩],
       true, 0⟩ 0 TriggerType.TEMP_LOW ActionType.TURN_OFF 20 =
      (false,
       ⟨[⟨0, TriggerType.TEMP_HIGH, ActionType.TURN_ON, 28, 38, true, false, 2, 0⟩,
         ⟨1, TriggerType.TEMP_HIGH, ActionType.TURN_ON, 28, 38, true, false, 2, 0⟩,
         ⟨2, TriggerType.TEMP_HIGH, ActionType.TURN_ON, 28, 38, true, false, 2, 0⟩,
         ⟨3, TriggerType.TEMP_HIGH, ActionType.TURN_ON, 28, 38, true, false, 2, 0⟩,
         ⟨4, TriggerType.TEMP_HIGH, ActionType.TURN_ON, 28, 38, true, false, 2, 0⟩],
        true, 0⟩) ∧
    ScheduleController.addSchedule [] 0 10 60 11 0 127 = (false, []) ∧
    ScheduleController.removeSchedule
      [⟨0, 8, 0, 17, 30, 127, true, false⟩, ⟨1, 0, 0, 1, 0, 1, true, false⟩] 0 =
      (true, [⟨1, 0, 0, 1, 0, 1, true, false⟩]) ∧
    AutomationController.setRuleEnabled ⟨[], true, 0⟩ 0 true = ⟨[], true, 0⟩ ∧
    AutomationController.getRule ⟨[], true, 0⟩ 0 = none ∧
    ScheduleController.getSchedule [] 3 = none := by
  refine ⟨?_, ?_, ?_, ?_, ?_, ?_⟩
  · exact management_error_handling.1 _ 0 TriggerType.TEMP_LOW ActionType.TURN_OFF 20
      (Or.inl (by decide))
  · exact management_error_handling.2.1 [] 0 10 60 11 0 127
      (Or.inr (Or.inr (Or.inr (Or.inr (Or.inl (by decide))))))
  · exact (management_error_handling.2.2.2.2.2.1
      [⟨0, 8, 0, 17, 30, 127, true, false⟩, ⟨1, 0, 0, 1, 0, 1, true, false⟩] 0
      (by decide)).1
  · exact management_error_handling.2.2.2.2.2.2.1 ⟨[], true, 0⟩ 0 true (by decide)
  · exact management_error_handling.2.2.2.2.2.2.2.2.1 ⟨[], true, 0⟩ 0 (by decide)
  · exact management_error_handling.2.2.2.2.2.2.2.2.2 [] 3 (by decide)

/-- C10: when the logical timer count is at `MAX_TIMERS`, `addTimer`
returns false and changes nothing — the capacity check precedes the
implicit cancellation, so no existing enabled timer for the relay is
cancelled, even when some counted slots are disabled — and `cancelTimer`
itself never decrements the count (disabled slots are reclaimed only by
the compaction pass inside the next update sweep). -/
theorem addTimer_at_capacity :
    (∀ (ts : List Timer) (r d : Nat) (f : Bool) (now : Nat),
      ts.length = MAX_TIMERS →
      ScheduleController.addTimer ts r d f now = (false, ts)) ∧
    (∀ (ts : List Timer) (r : Nat),
      (ScheduleController.cancelTimer ts r).2.length = ts.length) := by
  constructor
  · intro ts r d f now h
    unfold ScheduleController.addTimer
    rw [if_pos (by omega)]
  · intro ts r
    induction ts with
    | nil => rfl
    | cons t rest ih =>
      by_cases h : (t.relayId == r && t.enabled) = true <;>
        simp [ScheduleController.cancelTimer, h, ih]

/-- Witness for C10: a five-slot timer list, three of whose slots are
disabled (cancelled or expired, not yet compacted) and one of which is an
enabled timer for relay 2, rejects a new timer for relay 2 unchanged —
the enabled relay-2 timer is not cancelled — and cancelling on that list
keeps the count at five. -/
theorem addTimer_at_capacity_w :
    ScheduleController.addTimer
      [⟨1, 0, 10, true, false⟩, ⟨2, 0, 20, true, true⟩, ⟨0, 0, 5, true, false⟩,
       ⟨3, 0, 5, true, false⟩, ⟨4, 0, 5, true, true⟩] 2 99 false 1000 =
      (false,
       [⟨1, 0, 10, true, false⟩, ⟨2, 0, 20, true, true⟩, ⟨0, 0, 5, true, false⟩,
        ⟨3, 0, 5, true, false⟩, ⟨4, 0, 5, true, true⟩]) ∧
    (ScheduleController.cancelTimer
      [⟨1, 0, 10, true, false⟩, ⟨2, 0, 20, true, true⟩, ⟨0, 0, 5, true, false⟩,
       ⟨3, 0, 5, true, false⟩, ⟨4, 0, 5, true, true⟩] 2).2.length = 5 :=
  ⟨addTimer_at_capacity.1
     [⟨1, 0, 10, true, false⟩, ⟨2, 0, 20, true, true⟩, ⟨0, 0, 5, true, false⟩,
      ⟨3, 0, 5, true, false⟩, ⟨4, 0, 5, true, true⟩] 2 99 false 1000 rfl,
   addTimer_at_capacity.2
     [⟨1, 0, 10, true, false⟩, ⟨2, 0, 20, true, true⟩, ⟨0, 0, 5, true, false⟩,
      ⟨3, 0, 5, true, false⟩, ⟨4, 0, 5, true, true⟩] 2⟩

end HomeAuto
